import Mathlib

/-!
# Verification of the runebender `Select` tool (`src/tools/select.rs`)

A shallow embedding of the selection tool of the runebender vector-path
editor.  The tool itself (`select.rs`) is translated definition by
definition; the collaborators that live outside this source file
(`EditSession`, the viewport, the mouse dispatcher) are modelled from the
specification at their interface boundary.  Coordinates, which in the
source are `f64` values used only through comparisons, addition,
subtraction and scaling by integer factors, are modelled as `Int`;
`hypot` comparisons against `0.0` and `1.0` are modelled by comparing the
squared magnitude against `0` and `1`, which is equivalent for the
nonnegative real `hypot`.
-/

namespace Runebender

/-- A point in design space (the document's logical coordinate system). -/
structure DPoint where
  x : Int
  y : Int
deriving DecidableEq

/-- A vector in design space (`DVec2` in the source). -/
structure DVec2 where
  x : Int
  y : Int
deriving DecidableEq

/-- A point in screen space. -/
structure SPoint where
  x : Int
  y : Int
deriving DecidableEq

/-- Difference of two design-space points, a design-space vector. -/
def DPoint.sub (p q : DPoint) : DVec2 := ⟨p.x - q.x, p.y - q.y⟩

/-- Translate a design-space point by a design-space vector. -/
def DPoint.add (p : DPoint) (v : DVec2) : DPoint := ⟨p.x + v.x, p.y + v.y⟩

/-- Squared magnitude of a design-space vector.  The source compares
`v.hypot()` against `0.0` and `1.0`; since `hypot` is nonnegative these
comparisons coincide with comparing `hypotSq` against `0` and `1`. -/
def DVec2.hypotSq (v : DVec2) : Int := v.x * v.x + v.y * v.y

/-- An axis-aligned rectangle in screen space (kurbo `Rect`). -/
structure Rect where
  x0 : Int
  y0 : Int
  x1 : Int
  y1 : Int
deriving DecidableEq

/-- kurbo `Rect::from_points`: the rectangle spanned by two corner points,
with sorted coordinates. -/
def Rect.fromPoints (p q : SPoint) : Rect :=
  ⟨min p.x q.x, min p.y q.y, max p.x q.x, max p.y q.y⟩

/-- kurbo `Rect::contains`: half-open membership of a point in a rectangle. -/
def Rect.containsPt (r : Rect) (p : SPoint) : Bool :=
  r.x0 ≤ p.x && p.x < r.x1 && r.y0 ≤ p.y && p.y < r.y1

/-- Modelled from the spec: the viewport transform is an external
collaborator used only through its `to_screen` / `from_screen` contract,
so it is modelled as an abstract pair of coordinate maps. -/
structure Viewport where
  toScreen : DPoint → SPoint
  fromScreen : SPoint → DPoint

/-- Keyboard modifier state (druid `Modifiers`). -/
structure Mods where
  shift : Bool
  alt : Bool
  ctrl : Bool
  meta : Bool
deriving DecidableEq

/-- The keys the tool inspects (druid `KbKey`); `other` stands for every
remaining key. -/
inductive KbKey
  | arrowLeft
  | arrowRight
  | arrowUp
  | arrowDown
  | backspace
  | delete
  | tab
  | other
deriving DecidableEq

/-- A keyboard event: the pressed key and the modifier state. -/
structure KeyEvent where
  key : KbKey
  mods : Mods
deriving DecidableEq

/-- The edit classification reported to the undo machinery. -/
inductive EditType
  | normal
  | nudgeLeft
  | nudgeRight
  | nudgeUp
  | nudgeDown
  | drag
  | dragUp
deriving DecidableEq

/-- A mouse event: position, modifiers, click count. -/
structure MouseEvt where
  pos : SPoint
  mods : Mods
  count : Nat
deriving DecidableEq

/-- A drag gesture: its start and current mouse events (`mouse::Drag`). -/
structure Drag where
  start : MouseEvt
  current : MouseEvt
deriving DecidableEq

/-- Modelled from the spec: a path segment (`path::PathSeg`), either a
straight line or a cubic curve, holding the entity ids of its points. -/
inductive PathSeg
  | line (p1 p2 : Nat)
  | cubic (p1 p2 p3 p4 : Nat)
deriving DecidableEq

/-- The entity id of the segment's start point (`PathSeg::start_id`). -/
def PathSeg.startId : PathSeg → Nat
  | .line a _ => a
  | .cubic a _ _ _ => a

/-- The entity ids contributed by the segment (`PathSeg::ids`). -/
def PathSeg.ids : PathSeg → List Nat
  | .line a b => [a, b]
  | .cubic a b c d => [a, b, c, d]

/-- Whether the segment is a straight line (`matches!(seg, PathSeg::Line(..))`). -/
def PathSeg.isLine : PathSeg → Bool
  | .line _ _ => true
  | .cubic _ _ _ _ => false

/-- Modelled from the spec: a point of the document with its entity id,
design-space position and on-curve classification. -/
structure PathPoint where
  id : Nat
  point : DPoint
  onCurve : Bool
deriving DecidableEq

/-- Modelled from the spec: a path of the document, with the ids of its
points; `upgraded` records segments promoted from line to curve. -/
structure Path where
  pointIds : List Nat
  upgraded : List PathSeg
deriving DecidableEq

/-- Modelled from the spec: the `EditSession` collaborator at its
interface boundary.  The hit tests are external queries over the
document's screen-space geometry and are modelled as abstract oracles. -/
structure EditSession where
  selection : Finset Nat
  points : List PathPoint
  paths : List Path
  guides : Finset Nat
  viewport : Viewport
  hitTestAll : SPoint → Option Nat
  hitTestSegments : SPoint → Option (PathSeg × Int)
  hitTestPath : SPoint → Option Nat

/-- Modelled from the spec: replace the selection with a single point. -/
def EditSession.setSelectionOne (s : EditSession) (id : Nat) : EditSession :=
  { s with selection := {id} }

/-- Modelled from the spec: delete all currently selected entities and
clear the selection. -/
def EditSession.deleteSelection (s : EditSession) : EditSession :=
  { s with
    points := s.points.filter (fun p => decide (p.id ∉ s.selection))
    selection := ∅ }

/-- Modelled from the spec: move every selected entity by the given
design-space vector. -/
def EditSession.nudgeSelection (s : EditSession) (v : DVec2) : EditSession :=
  { s with
    points := s.points.map (fun p =>
      if p.id ∈ s.selection then { p with point := p.point.add v } else p) }

/-- Modelled from the spec: advance the selection to the next entity in
document-defined order (here: the order of the point list), selecting the
first entity when nothing is selected. -/
def EditSession.selectNext (s : EditSession) : EditSession :=
  match s.points.map (fun p => p.id) with
  | [] => s
  | first :: rest =>
    match (first :: rest).findIdx? (fun i => decide (i ∈ s.selection)) with
    | Option.none => { s with selection := {first} }
    | some i =>
      let ids := first :: rest
      { s with selection := {ids.getD ((i + 1) % ids.length) first} }

/-- Modelled from the spec: move the selection to the previous entity in
document-defined order, selecting the last entity when nothing is
selected. -/
def EditSession.selectPrev (s : EditSession) : EditSession :=
  match s.points.map (fun p => p.id) with
  | [] => s
  | first :: rest =>
    match (first :: rest).findIdx? (fun i => decide (i ∈ s.selection)) with
    | Option.none => { s with selection := {(first :: rest).getLast (by simp)} }
    | some i =>
      let ids := first :: rest
      { s with selection := {ids.getD ((i + ids.length - 1) % ids.length) first} }

/-- `EditSession::path_for_point`: the index of the path containing the
given point id, if any. -/
def EditSession.pathForPoint (s : EditSession) (id : Nat) : Option Nat :=
  s.paths.findIdx? (fun p => decide (id ∈ p.pointIds))

/-- `EditSession::path_point_for_id`: the document point with the given
id, if any. -/
def EditSession.pathPointForId (s : EditSession) (id : Nat) : Option PathPoint :=
  s.points.find? (fun p => decide (p.id = id))

/-- Modelled from the spec: promote a straight line segment of the path
to a curve segment in place; the model records the upgraded segment. -/
def Path.upgradeLineSeg (p : Path) (seg : PathSeg) : Path :=
  { p with upgraded := seg :: p.upgraded }

/-- Modelled from the spec: toggle the on-curve / off-curve
classification of the selected points. -/
def EditSession.toggleSelectedOnCurveType (s : EditSession) : EditSession :=
  { s with
    points := s.points.map (fun p =>
      if p.id ∈ s.selection then { p with onCurve := !p.onCurve } else p) }

/-- Modelled from the spec: toggle / cycle the guide's orientation at the
clicked position.  Guide orientation is not tracked by this model, so the
session is unchanged; no claim depends on the guide's own state. -/
def EditSession.toggleGuide (s : EditSession) (_id : Nat) (_pos : SPoint) : EditSession :=
  s

/-- Modelled from the spec: select the entire path under the pointer,
honoring shift for additive selection. -/
def EditSession.selectPath (s : EditSession) (pos : SPoint) (shift : Bool) : EditSession :=
  match s.hitTestPath pos with
  | Option.none => s
  | some i =>
    match s.paths[i]? with
    | Option.none => s
    | some path =>
      let base := if shift then s.selection else (∅ : Finset Nat)
      { s with selection := base ∪ path.pointIds.toFinset }

/-- Replace the element at an index of a list, leaving the list unchanged
when the index is out of range. -/
def listModify {α : Type} (l : List α) (i : Nat) (f : α → α) : List α :=
  match l, i with
  | [], _ => []
  | a :: as, 0 => f a :: as
  | a :: as, i + 1 => a :: listModify as i f

/-- The drag state machine of the tool (`DragState`). -/
inductive DragState
  | Select (previous : Finset Nat) (rect : Rect)
  | Move (last_used_pos : DPoint)
  | None
deriving DecidableEq

/-- `DragState::drag_rect`. -/
def DragState.dragRect : DragState → Option Rect
  | .Select _ r => some r
  | _ => Option.none

/-- `DragState::is_move`. -/
def DragState.isMove : DragState → Bool
  | .Move _ => true
  | _ => false

/-- The state of the selection tool (`struct Select`). -/
structure Select where
  drag : DragState
  last_pos : SPoint
  this_edit_type : Option EditType
deriving DecidableEq

/-- The tool's initial state (`Select::default`). -/
def Select.init : Select := ⟨DragState.None, ⟨0, 0⟩, Option.none⟩

/-- The panics the embedded functions can raise. -/
inductive PanicMsg
  | assertFailed
  | unwrapNone
  | invalidState
  | nudgeUnreachable
deriving DecidableEq

/-- `update_selection_for_drag`: recompute the live selection from the
pre-drag snapshot, the marquee rectangle and the shift flag. -/
def update_selection_for_drag (data : EditSession) (prev_sel : Finset Nat)
    (rect : Rect) (shift : Bool) : EditSession :=
  let in_select_rect : Finset Nat :=
    ((data.points.filter
        (fun p => rect.containsPt (data.viewport.toScreen p.point))).map
      (fun p => p.id)).toFinset
  let new_sel :=
    if shift then symmDiff prev_sel in_select_rect
    else prev_sel ∪ in_select_rect
  { data with selection := new_sel }

/-- `Select::nudge`: move the selection by an arrow-key vector, scaled by
the modifiers, and classify the edit. -/
def Select.nudge (tool : Select) (data : EditSession) (event : KeyEvent) :
    Except PanicMsg (Select × EditSession) :=
  match
    (match event.key with
      | .arrowLeft => some ((⟨-1, 0⟩ : DVec2), EditType.nudgeLeft)
      | .arrowRight => some (⟨1, 0⟩, EditType.nudgeRight)
      | .arrowUp => some (⟨0, 1⟩, EditType.nudgeUp)
      | .arrowDown => some (⟨0, -1⟩, EditType.nudgeDown)
      | _ => Option.none) with
  | Option.none => .error .nudgeUnreachable
  | some (v, edit_type) =>
    let v : DVec2 :=
      if event.mods.meta then ⟨v.x * 100, v.y * 100⟩
      else if event.mods.shift then ⟨v.x * 10, v.y * 10⟩
      else v
    let data := data.nudgeSelection v
    let tool :=
      if v.hypotSq > 1 then { tool with this_edit_type := some EditType.normal }
      else { tool with this_edit_type := some edit_type }
    .ok (tool, data)

/-- `Select::key_down`: the keyboard entry point.  Asserts the pending
edit-type slot empty, handles arrows / backspace / tab, and returns and
clears the slot (`self.this_edit_type.take()`). -/
def Select.key_down (tool : Select) (event : KeyEvent) (data : EditSession) :
    Except PanicMsg (Select × EditSession × Option EditType) :=
  if tool.this_edit_type.isSome then .error .assertFailed
  else if event.key = .arrowLeft ∨ event.key = .arrowDown
      ∨ event.key = .arrowUp ∨ event.key = .arrowRight then
    match Select.nudge tool data event with
    | .error m => .error m
    | .ok (t, d) => .ok ({ t with this_edit_type := Option.none }, d, t.this_edit_type)
  else if event.key = .backspace then
    let d := data.deleteSelection
    let t := { tool with this_edit_type := some EditType.normal }
    .ok ({ t with this_edit_type := Option.none }, d, t.this_edit_type)
  else if event.key = .tab ∧ event.mods = ⟨false, false, false, false⟩ then
    .ok ({ tool with this_edit_type := Option.none }, data.selectNext, tool.this_edit_type)
  else if event.key = .tab ∧ event.mods = ⟨true, false, false, false⟩ then
    .ok ({ tool with this_edit_type := Option.none }, data.selectPrev, tool.this_edit_type)
  else
    .ok (tool, data, Option.none)

/-- `Select::mouse_event`: the mouse entry point.  The `Mouse` dispatcher
lives outside this source and is modelled from the spec as an arbitrary
transformer of tool and session; the repaint request it may trigger is a
render-only effect and is not modelled. -/
def Select.mouse_event
    (dispatch : Select → EditSession → Except PanicMsg (Select × EditSession))
    (tool : Select) (data : EditSession) :
    Except PanicMsg (Select × EditSession × Option EditType) :=
  if tool.this_edit_type.isSome then .error .assertFailed
  else
    match dispatch tool data with
    | .error m => .error m
    | .ok (t, d) => .ok ({ t with this_edit_type := Option.none }, d, t.this_edit_type)

/-- `MouseDelegate::mouse_moved`: record the last pointer position. -/
def Select.mouse_moved (tool : Select) (event : MouseEvt) (data : EditSession) :
    Select × EditSession :=
  ({ tool with last_pos := event.pos }, data)

/-- `MouseDelegate::left_down`: click classification and selection
update. -/
def Select.left_down (tool : Select) (event : MouseEvt) (data : EditSession) :
    Except PanicMsg (Select × EditSession) :=
  if event.count = 1 then
    match data.hitTestAll event.pos with
    | some point_id =>
      if ¬event.mods.shift then
        if point_id ∉ data.selection then
          .ok (tool, data.setSelectionOne point_id)
        else .ok (tool, data)
      else if point_id ∈ data.selection then
        .ok (tool, { data with selection := data.selection.erase point_id })
      else
        .ok (tool, { data with selection := insert point_id data.selection })
    | Option.none =>
      match data.hitTestSegments event.pos with
      | some (seg, _t) =>
        if event.mods.alt ∧ seg.isLine then
          match data.pathForPoint seg.startId with
          | Option.none => .error .unwrapNone
          | some i =>
            let tool := { tool with this_edit_type := some EditType.normal }
            let data :=
              { data with paths := listModify data.paths i (fun p => p.upgradeLineSeg seg) }
            .ok (tool, data)
        else
          let ids := seg.ids
          let sel := data.selection
          if ¬event.mods.shift then
            if ¬ids.all (fun id => decide (id ∈ sel)) then
              .ok (tool, { data with selection := ids.toFinset })
            else .ok (tool, data)
          else if ids.all (fun id => decide (id ∈ sel)) then
            .ok (tool, { data with selection := ids.foldl (fun s id => s.erase id) sel })
          else
            .ok (tool, { data with selection := sel ∪ ids.toFinset })
      | Option.none =>
        if ¬event.mods.shift then
          .ok (tool, { data with selection := ∅ })
        else .ok (tool, data)
  else if event.count = 2 then
    match data.hitTestAll event.pos with
    | some id =>
      if ((data.pathPointForId id).map (fun p => p.onCurve)).getD false then
        .ok ({ tool with this_edit_type := some EditType.normal },
          data.toggleSelectedOnCurveType)
      else if id ∈ data.guides then
        .ok ({ tool with this_edit_type := some EditType.normal },
          data.toggleGuide id event.pos)
      else
        .ok (tool, data.selectPath event.pos event.mods.shift)
    | Option.none => .ok (tool, data.selectPath event.pos event.mods.shift)
  else .ok (tool, data)

/-- `MouseDelegate::left_up`: reset the drag state unconditionally. -/
def Select.left_up (tool : Select) (_event : MouseEvt) (data : EditSession) :
    Select × EditSession :=
  ({ tool with drag := DragState.None }, data)

/-- `MouseDelegate::left_drag_began`: classify the gesture as Move or
Select by re-hit-testing at the drag's start position. -/
def Select.left_drag_began (tool : Select) (drag : Drag) (data : EditSession) :
    Select × EditSession :=
  let sel := data.hitTestAll drag.start.pos
  let is_dragging_item := sel.isSome
  let newDrag :=
    if is_dragging_item then
      DragState.Move (data.viewport.fromScreen drag.start.pos)
    else
      DragState.Select data.selection (Rect.fromPoints drag.start.pos drag.current.pos)
  ({ tool with drag := newDrag }, data)

/-- `MouseDelegate::left_drag_changed`: per-frame drag update; panics
(`unreachable!`) when the drag state is `None`. -/
def Select.left_drag_changed (tool : Select) (drag : Drag) (data : EditSession) :
    Except PanicMsg (Select × EditSession) :=
  match tool.drag with
  | DragState.Select previous _rect =>
    let rect := Rect.fromPoints drag.current.pos drag.start.pos
    let data := update_selection_for_drag data previous rect drag.current.mods.shift
    .ok ({ tool with drag := DragState.Select previous rect }, data)
  | DragState.Move last_used_pos =>
    let drag_pos := data.viewport.fromScreen drag.current.pos
    let drag_delta := drag_pos.sub last_used_pos
    if drag_delta.hypotSq > 0 then
      .ok ({ tool with
          drag := DragState.Move drag_pos
          this_edit_type := some EditType.drag },
        data.nudgeSelection drag_delta)
    else
      .ok ({ tool with this_edit_type := some EditType.drag }, data)
  | DragState.None => .error .invalidState

/-- `MouseDelegate::left_drag_ended`: emit `DragUp` when the gesture was
a move; the drag state itself is left for `left_up` to reset. -/
def Select.left_drag_ended (tool : Select) (_drag : Drag) (data : EditSession) :
    Select × EditSession :=
  if tool.drag.isMove then
    ({ tool with this_edit_type := some EditType.dragUp }, data)
  else (tool, data)

/-- `MouseDelegate::cancel`: restore the pre-drag selection snapshot when
the gesture was a rectangular selection, and reset the drag state. -/
def Select.cancel (tool : Select) (data : EditSession) : Select × EditSession :=
  let old_state := tool.drag
  let tool := { tool with drag := DragState.None }
  match old_state with
  | DragState.Select previous _ => (tool, { data with selection := previous })
  | _ => (tool, data)

/-- The gesture-callback alphabet delivered by the external mouse
dispatcher. -/
inductive GestureEvent
  | moved (e : MouseEvt)
  | down (e : MouseEvt)
  | up (e : MouseEvt)
  | dragBegan (d : Drag)
  | dragChanged (d : Drag)
  | dragEnded (d : Drag)
  | cancelEvt
deriving DecidableEq

/-- Deliver one gesture callback to the tool. -/
def stepGesture (st : Select × EditSession) : GestureEvent →
    Except PanicMsg (Select × EditSession)
  | .moved e => .ok (Select.mouse_moved st.1 e st.2)
  | .down e => Select.left_down st.1 e st.2
  | .up e => .ok (Select.left_up st.1 e st.2)
  | .dragBegan d => .ok (Select.left_drag_began st.1 d st.2)
  | .dragChanged d => Select.left_drag_changed st.1 d st.2
  | .dragEnded d => .ok (Select.left_drag_ended st.1 d st.2)
  | .cancelEvt => .ok (Select.cancel st.1 st.2)

/-- Deliver a sequence of gesture callbacks, stopping at the first
panic. -/
def runGestures : List GestureEvent → Select × EditSession →
    Except PanicMsg (Select × EditSession)
  | [], st => .ok st
  | e :: es, st =>
    match stepGesture st e with
    | .error m => .error m
    | .ok st' => runGestures es st'

/-- Whether a drag gesture is open after delivering one callback: opened
by drag-began, closed by drag-ended, up, or cancel. -/
def inDragAfter (b : Bool) : GestureEvent → Bool
  | .dragBegan _ => true
  | .dragEnded _ => false
  | .up _ => false
  | .cancelEvt => false
  | _ => b

/-- Modelled from the spec: the dispatcher's documented callback-ordering
precondition, restricted to what the claims need — a drag-changed
callback is delivered only while a drag gesture is open. -/
def validGestures : Bool → List GestureEvent → Bool
  | _, [] => true
  | b, e :: es =>
    (match e with
      | .dragChanged _ => b
      | _ => true) && validGestures (inDragAfter b e) es

/-- Deliver a sequence of drag-changed callbacks, stopping at the first
panic. -/
def runDragChanges : List Drag → Select × EditSession →
    Except PanicMsg (Select × EditSession)
  | [], st => .ok st
  | d :: ds, st =>
    match Select.left_drag_changed st.1 d st.2 with
    | .error m => .error m
    | .ok st' => runDragChanges ds st'

/-! Concrete instances used by the witness theorems. -/

/-- A concrete viewport: the identity transform. -/
def vpId : Viewport := ⟨fun p => ⟨p.x, p.y⟩, fun p => ⟨p.x, p.y⟩⟩

/-- Modifier state with no modifiers held. -/
def noMods : Mods := ⟨false, false, false, false⟩

/-- Modifier state with only shift held. -/
def shiftMods : Mods := ⟨true, false, false, false⟩

/-- A concrete sample session: two points, one path, point hit tests at
the two point positions. -/
def sampleSession : EditSession where
  selection := ∅
  points := [⟨1, ⟨0, 0⟩, true⟩, ⟨2, ⟨5, 5⟩, true⟩]
  paths := [⟨[1, 2], []⟩]
  guides := ∅
  viewport := vpId
  hitTestAll := fun p =>
    if p = ⟨0, 0⟩ then some 1 else if p = ⟨5, 5⟩ then some 2 else Option.none
  hitTestSegments := fun _ => Option.none
  hitTestPath := fun _ => Option.none

/-- A concrete sample session whose segment hit test reports a line
segment between points that belong to no path. -/
def orphanSegSession : EditSession where
  selection := ∅
  points := []
  paths := []
  guides := ∅
  viewport := vpId
  hitTestAll := fun _ => Option.none
  hitTestSegments := fun _ => some (PathSeg.line 7 8, 0)
  hitTestPath := fun _ => Option.none

/-- A concrete sample session whose segment hit test reports a line
segment whose endpoints lie on the (single) path. -/
def segSession : EditSession where
  selection := ∅
  points := [⟨1, ⟨0, 0⟩, true⟩, ⟨2, ⟨5, 5⟩, true⟩]
  paths := [⟨[1, 2], []⟩]
  guides := ∅
  viewport := vpId
  hitTestAll := fun _ => Option.none
  hitTestSegments := fun _ => some (PathSeg.line 1 2, 0)
  hitTestPath := fun _ => Option.none

/-! ## Claim C1: the rectangle-selection update -/

/-- C1: for every previous-selection snapshot `P`, marquee rectangle `R`
and shift flag, `update_selection_for_drag` sets the live selection to
the symmetric difference of `P` and `H` when shift is held and to the
union of `P` and `H` otherwise, where `H` is exactly the set of point
entity ids whose screen-space projection lies within `R`; the result
depends only on `(P, R, shift)` (and the document's geometry), not on the
session's current selection, hence not on earlier frames of the drag. -/
theorem c1_rect_selection_update (data : EditSession) (P : Finset Nat) (R : Rect)
    (shift : Bool) :
    (∀ x : Nat,
      x ∈ (update_selection_for_drag data P R shift).selection ↔
        (if shift then
          ((x ∈ P ∧ ¬∃ p ∈ data.points, p.id = x ∧
              R.containsPt (data.viewport.toScreen p.point) = true)
            ∨ ((∃ p ∈ data.points, p.id = x ∧
                R.containsPt (data.viewport.toScreen p.point) = true) ∧ x ∉ P))
        else
          (x ∈ P ∨ ∃ p ∈ data.points, p.id = x ∧
            R.containsPt (data.viewport.toScreen p.point) = true)))
    ∧ (update_selection_for_drag data P R shift).points = data.points
    ∧ (∀ sel' : Finset Nat,
        (update_selection_for_drag { data with selection := sel' } P R shift).selection =
          (update_selection_for_drag data P R shift).selection) := by
  refine ⟨?_, rfl, fun sel' => rfl⟩
  intro x
  have hmem : x ∈ ((data.points.filter
        (fun p => R.containsPt (data.viewport.toScreen p.point))).map
      (fun p => p.id)).toFinset ↔
      (∃ p ∈ data.points, p.id = x ∧
        R.containsPt (data.viewport.toScreen p.point) = true) := by
    simp only [List.mem_toFinset, List.mem_map, List.mem_filter]
    constructor
    · rintro ⟨p, ⟨hp, hc⟩, hid⟩
      exact ⟨p, hp, hid, hc⟩
    · rintro ⟨p, hp, hid, hc⟩
      exact ⟨p, ⟨hp, hc⟩, hid⟩
  cases shift
  · exact Finset.mem_union.trans (or_congr Iff.rfl hmem)
  · exact Finset.mem_symmDiff.trans
      (or_congr (and_congr Iff.rfl (not_congr hmem)) (and_congr hmem Iff.rfl))

/-! ## Claim C9: drag-began classification -/

/-- C9: for every drag-began event, a hit at the drag's start position
enters the `Move` state with `last_used_pos` the start position converted
to design space; a miss enters the `Select` state with `previous` a
snapshot of the current selection and `rect` the rectangle spanned by the
drag's start and current screen points.  The session is untouched. -/
theorem c9_drag_began_classification (tool : Select) (drag : Drag) (data : EditSession) :
    ((∃ x, data.hitTestAll drag.start.pos = some x) →
      Select.left_drag_began tool drag data =
        ({ tool with drag := DragState.Move (data.viewport.fromScreen drag.start.pos) }, data))
    ∧ (data.hitTestAll drag.start.pos = Option.none →
      Select.left_drag_began tool drag data =
        ({ tool with drag := (DragState.Select data.selection
            (Rect.fromPoints drag.start.pos drag.current.pos)) }, data)) := by
  constructor
  · rintro ⟨x, hx⟩
    unfold Select.left_drag_began
    rw [hx]
    rfl
  · intro hx
    unfold Select.left_drag_began
    rw [hx]
    rfl

/-- C9 witness: concrete instantiations of both branches, on the sample
session (start position `(0,0)` hits point `1`; start position `(9,9)`
hits nothing). -/
theorem c9_drag_began_classification_witness :
    (Select.left_drag_began Select.init
        ⟨⟨⟨0, 0⟩, noMods, 1⟩, ⟨⟨3, 3⟩, noMods, 1⟩⟩ sampleSession =
      ({ Select.init with
          drag := (DragState.Move (sampleSession.viewport.fromScreen ⟨0, 0⟩)) }, sampleSession))
    ∧ (Select.left_drag_began Select.init
        ⟨⟨⟨9, 9⟩, noMods, 1⟩, ⟨⟨3, 3⟩, noMods, 1⟩⟩ sampleSession =
      ({ Select.init with
          drag := (DragState.Select sampleSession.selection
            (Rect.fromPoints ⟨9, 9⟩ ⟨3, 3⟩)) }, sampleSession)) :=
  ⟨(c9_drag_began_classification Select.init
      ⟨⟨⟨0, 0⟩, noMods, 1⟩, ⟨⟨3, 3⟩, noMods, 1⟩⟩ sampleSession).1 ⟨1, rfl⟩,
    (c9_drag_began_classification Select.init
      ⟨⟨⟨9, 9⟩, noMods, 1⟩, ⟨⟨3, 3⟩, noMods, 1⟩⟩ sampleSession).2 rfl⟩

/-! ## Claim C3: arrow-key nudge -/

/-- Follows the spec's words (§4.2): the unit direction of an arrow key
in design space. -/
def spec_unit_dir : KbKey → DVec2
  | .arrowLeft => ⟨-1, 0⟩
  | .arrowRight => ⟨1, 0⟩
  | .arrowUp => ⟨0, 1⟩
  | .arrowDown => ⟨0, -1⟩
  | _ => ⟨0, 0⟩

/-- Follows the spec's words (§4.2): the modifier scale factor — 100 for
the primary (meta) modifier, else 10 for shift, else 1; primary takes
precedence when both are held. -/
def spec_scale (m : Mods) : Int :=
  if m.meta then 100 else if m.shift then 10 else 1

/-- Follows the spec's words (§4.2): the applied design-space nudge
vector, the unit direction multiplied by the modifier scale. -/
def spec_nudge_vector (e : KeyEvent) : DVec2 :=
  ⟨(spec_unit_dir e.key).x * spec_scale e.mods,
    (spec_unit_dir e.key).y * spec_scale e.mods⟩

/-- Follows the spec's words (§4.2): the direction-specific nudge edit
type of an arrow key. -/
def spec_nudge_type : KbKey → EditType
  | .arrowLeft => .nudgeLeft
  | .arrowRight => .nudgeRight
  | .arrowUp => .nudgeUp
  | .arrowDown => .nudgeDown
  | _ => .normal

/-- C3: for every arrow-key nudge, the session is nudged by exactly the
unit direction of the key scaled by 100 under meta (else 10 under shift,
primary taking precedence), the emitted edit type is `Normal` exactly
when the applied vector's squared magnitude exceeds 1 (equivalently, when
a scaling modifier is in effect) and is the direction-specific nudge type
otherwise. -/
theorem c3_nudge_vector_and_edit_type (tool : Select) (data : EditSession) (e : KeyEvent)
    (harrow : e.key = KbKey.arrowLeft ∨ e.key = KbKey.arrowRight
      ∨ e.key = KbKey.arrowUp ∨ e.key = KbKey.arrowDown) :
    Select.nudge tool data e =
      .ok ({ tool with this_edit_type := (some (if (spec_nudge_vector e).hypotSq > 1
              then EditType.normal else spec_nudge_type e.key)) },
        data.nudgeSelection (spec_nudge_vector e))
    ∧ ((spec_nudge_vector e).hypotSq > 1 ↔ (e.mods.meta = true ∨ e.mods.shift = true)) := by
  obtain ⟨key, mshift, malt, mctrl, mmeta⟩ := e
  rcases harrow with hk | hk | hk | hk <;> cases hk <;>
    cases mmeta <;> cases mshift <;> cases malt <;> cases mctrl <;>
      exact ⟨rfl, by decide⟩

/-- C3 witness: the spec's own concrete scenario — selection `{1}`, shift
held, ArrowRight: the selection moves by `(10, 0)` in design space and
the edit type is `Normal`. -/
theorem c3_nudge_vector_and_edit_type_witness :
    Select.nudge Select.init { sampleSession with selection := {1} }
        ⟨KbKey.arrowRight, shiftMods⟩ =
      .ok ({ Select.init with this_edit_type := some EditType.normal },
        ({ sampleSession with selection := {1} } : EditSession).nudgeSelection ⟨10, 0⟩) :=
  (c3_nudge_vector_and_edit_type Select.init { sampleSession with selection := {1} }
    ⟨KbKey.arrowRight, shiftMods⟩ (Or.inr (Or.inl rfl))).1

/-! ## Claim C4: Backspace / Delete -/

/-- C4 counterexample: a keyDown whose key is Delete, with a nonempty
selection, is not handled at all — the session is unchanged (nothing is
deleted) and no edit type is returned, contradicting the claim that
Delete deletes the selection and returns `Normal`. -/
theorem c4_delete_key_counterexample :
    Select.key_down Select.init ⟨KbKey.delete, noMods⟩
        { sampleSession with selection := {1} } =
      .ok (Select.init, { sampleSession with selection := {1} }, Option.none)
    ∧ ({1} : Finset Nat) ≠ ∅ :=
  ⟨rfl, by decide⟩

/-- C4 amended: for every keyDown whose key is Backspace (the only
deletion key the tool handles), all currently selected entities are
deleted and the call returns edit type `Normal`; a keyDown whose key is
Delete is not handled — it returns no edit type and leaves the session
unchanged. -/
theorem c4_backspace_deletes (tool : Select) (event : KeyEvent) (data : EditSession)
    (hslot : tool.this_edit_type = Option.none) :
    (event.key = KbKey.backspace →
      Select.key_down tool event data =
        .ok (tool, data.deleteSelection, some EditType.normal))
    ∧ (event.key = KbKey.delete →
      Select.key_down tool event data = .ok (tool, data, Option.none)) := by
  obtain ⟨dragSt, lastPos, slot⟩ := tool
  cases hslot
  obtain ⟨key, mods⟩ := event
  constructor
  · intro hk
    cases hk
    rfl
  · intro hk
    cases hk
    rfl

/-- C4 amended witness: Backspace on the sample session with selection
`{1}` deletes the selection and returns `Normal`. -/
theorem c4_backspace_deletes_witness :
    Select.key_down Select.init ⟨KbKey.backspace, noMods⟩
        { sampleSession with selection := {1} } =
      .ok (Select.init,
        ({ sampleSession with selection := {1} } : EditSession).deleteSelection,
        some EditType.normal) :=
  (c4_backspace_deletes Select.init ⟨KbKey.backspace, noMods⟩
    { sampleSession with selection := {1} } rfl).1 rfl

/-! ## Claim C5: single click on a point -/

/-- C5: for a single click that hit-tests to a point — without shift, an
unselected point becomes the sole selection and an already-selected point
leaves the selection untouched; with shift, the point's membership is
toggled (erased if present, inserted if absent). -/
theorem c5_click_point_selection (tool : Select) (event : MouseEvt) (data : EditSession)
    (pid : Nat) (hcount : event.count = 1)
    (hhit : data.hitTestAll event.pos = some pid) :
    (event.mods.shift = false → pid ∉ data.selection →
      Select.left_down tool event data = .ok (tool, { data with selection := {pid} }))
    ∧ (event.mods.shift = false → pid ∈ data.selection →
      Select.left_down tool event data = .ok (tool, data))
    ∧ (event.mods.shift = true → pid ∈ data.selection →
      Select.left_down tool event data =
        .ok (tool, { data with selection := data.selection.erase pid }))
    ∧ (event.mods.shift = true → pid ∉ data.selection →
      Select.left_down tool event data =
        .ok (tool, { data with selection := insert pid data.selection })) := by
  refine ⟨fun hs hmem => ?_, fun hs hmem => ?_, fun hs hmem => ?_, fun hs hmem => ?_⟩ <;>
    simp [Select.left_down, hcount, hhit, hs, hmem, EditSession.setSelectionOne]

/-- C5 witness: the spec's concrete scenario — from the empty selection,
clicking point 1 yields `{1}`; shift-clicking point 2 yields
`insert 2 {1} = {1, 2}`; shift-clicking point 1 again erases it, leaving
`{2}`. -/
theorem c5_click_point_selection_witness :
    (Select.left_down Select.init ⟨⟨0, 0⟩, noMods, 1⟩ sampleSession =
      .ok (Select.init, { sampleSession with selection := {1} }))
    ∧ (Select.left_down Select.init ⟨⟨5, 5⟩, shiftMods, 1⟩
        { sampleSession with selection := {1} } =
      .ok (Select.init, { sampleSession with selection := insert 2 ({1} : Finset Nat) }))
    ∧ (Select.left_down Select.init ⟨⟨0, 0⟩, shiftMods, 1⟩
        { sampleSession with selection := insert 2 ({1} : Finset Nat) } =
      .ok (Select.init,
        { sampleSession with selection := (insert 2 ({1} : Finset Nat)).erase 1 }))
    ∧ (insert 2 ({1} : Finset Nat)) = {1, 2}
    ∧ ((insert 2 ({1} : Finset Nat)).erase 1 = {2}) :=
  ⟨(c5_click_point_selection Select.init ⟨⟨0, 0⟩, noMods, 1⟩ sampleSession 1
      rfl rfl).1 rfl (by decide),
    (c5_click_point_selection Select.init ⟨⟨5, 5⟩, shiftMods, 1⟩
      { sampleSession with selection := {1} } 2 rfl rfl).2.2.2 rfl (by decide),
    (c5_click_point_selection Select.init ⟨⟨0, 0⟩, shiftMods, 1⟩
      { sampleSession with selection := insert 2 {1} } 1 rfl rfl).2.2.1 rfl (by decide),
    by decide, by decide⟩

/-! ## Claim C6: single click on a segment -/

/-- Erasing a list of ids one by one from a finset is set difference with
the list's finset. -/
theorem foldl_erase_eq_sdiff (ids : List Nat) (s : Finset Nat) :
    ids.foldl (fun t id => t.erase id) s = s \ ids.toFinset := by
  induction ids generalizing s with
  | nil => simp
  | cons a l ih =>
    rw [List.foldl_cons, ih]
    ext x
    simp only [Finset.mem_sdiff, Finset.mem_erase, List.toFinset_cons,
      Finset.mem_insert, List.mem_toFinset]
    tauto

/-- The source's `ids.iter().all(|id| sel.contains(id))` test coincides
with finset inclusion of the id group in the selection. -/
theorem all_contains_iff_subset (ids : List Nat) (s : Finset Nat) :
    (ids.all (fun id => decide (id ∈ s)) = true) ↔ ids.toFinset ⊆ s := by
  simp [List.all_eq_true, Finset.subset_iff]

/-- A segment always contributes at least one id. -/
theorem PathSeg.ids_ne_nil (seg : PathSeg) : seg.ids ≠ [] := by
  cases seg <;> simp [PathSeg.ids]

/-- C6: for a single click on a segment (no point hit, no alt-upgrade)
the segment's ids act as one group: without shift, a not-fully-selected
group replaces the selection and a fully-selected one leaves it
untouched; with shift, a fully-selected group is removed wholesale and
otherwise the whole group is added; moreover a shift-click on a
fully-selected group followed by a second shift-click removes exactly the
group and then re-adds exactly the group, restoring the original
selection. -/
theorem c6_click_segment_group (tool : Select) (event : MouseEvt) (data : EditSession)
    (seg : PathSeg) (tpar : Int) (hcount : event.count = 1)
    (hnohit : data.hitTestAll event.pos = Option.none)
    (hseg : data.hitTestSegments event.pos = some (seg, tpar))
    (hnoup : ¬(event.mods.alt = true ∧ seg.isLine = true)) :
    (event.mods.shift = false → ¬seg.ids.toFinset ⊆ data.selection →
      Select.left_down tool event data =
        .ok (tool, { data with selection := seg.ids.toFinset }))
    ∧ (event.mods.shift = false → seg.ids.toFinset ⊆ data.selection →
      Select.left_down tool event data = .ok (tool, data))
    ∧ (event.mods.shift = true → seg.ids.toFinset ⊆ data.selection →
      Select.left_down tool event data =
        .ok (tool, { data with selection := data.selection \ seg.ids.toFinset }))
    ∧ (event.mods.shift = true → ¬seg.ids.toFinset ⊆ data.selection →
      Select.left_down tool event data =
        .ok (tool, { data with selection := data.selection ∪ seg.ids.toFinset }))
    ∧ (event.mods.shift = true → seg.ids.toFinset ⊆ data.selection →
      Select.left_down tool event
          { data with selection := data.selection \ seg.ids.toFinset } =
        .ok (tool, { data with selection :=
          (data.selection \ seg.ids.toFinset) ∪ seg.ids.toFinset })
      ∧ (data.selection \ seg.ids.toFinset) ∪ seg.ids.toFinset = data.selection) := by
  have step : ∀ d' : EditSession, d'.hitTestAll = data.hitTestAll →
      d'.hitTestSegments = data.hitTestSegments →
      (event.mods.shift = false → ¬seg.ids.toFinset ⊆ d'.selection →
        Select.left_down tool event d' =
          .ok (tool, { d' with selection := seg.ids.toFinset }))
      ∧ (event.mods.shift = false → seg.ids.toFinset ⊆ d'.selection →
        Select.left_down tool event d' = .ok (tool, d'))
      ∧ (event.mods.shift = true → seg.ids.toFinset ⊆ d'.selection →
        Select.left_down tool event d' =
          .ok (tool, { d' with selection := d'.selection \ seg.ids.toFinset }))
      ∧ (event.mods.shift = true → ¬seg.ids.toFinset ⊆ d'.selection →
        Select.left_down tool event d' =
          .ok (tool, { d' with selection := d'.selection ∪ seg.ids.toFinset })) := by
    intro d' hA hS
    have hnohit' : d'.hitTestAll event.pos = Option.none := by rw [hA]; exact hnohit
    have hseg' : d'.hitTestSegments event.pos = some (seg, tpar) := by rw [hS]; exact hseg
    refine ⟨fun hs hsub => ?_, fun hs hsub => ?_, fun hs hsub => ?_, fun hs hsub => ?_⟩ <;>
      rw [← all_contains_iff_subset] at hsub <;>
      simp [Select.left_down, hcount, hnohit', hseg', hs, hnoup, hsub,
        foldl_erase_eq_sdiff]
  obtain ⟨h1, h2, h3, h4⟩ := step data rfl rfl
  refine ⟨h1, h2, h3, h4, fun hs hsub => ?_⟩
  have hne : ¬seg.ids.toFinset ⊆ data.selection \ seg.ids.toFinset := by
    intro hcontra
    obtain ⟨a, ha⟩ := List.exists_mem_of_ne_nil seg.ids (PathSeg.ids_ne_nil seg)
    have haf : a ∈ seg.ids.toFinset := List.mem_toFinset.mpr ha
    exact ((Finset.mem_sdiff.mp (hcontra haf)).2) haf
  obtain ⟨_, _, _, h4'⟩ :=
    step { data with selection := data.selection \ seg.ids.toFinset } rfl rfl
  exact ⟨h4' hs hne, Finset.sdiff_union_of_subset hsub⟩

/-- C6 witness: with selection `{1, 2}` and a hit line segment with ids
`[1, 2]`, a shift-click removes the whole group, and a second shift-click
re-adds it, restoring `{1, 2}`. -/
theorem c6_click_segment_group_witness :
    (Select.left_down Select.init ⟨⟨3, 3⟩, shiftMods, 1⟩
        { segSession with selection := {1, 2} } =
      .ok (Select.init, { segSession with selection :=
        ({1, 2} : Finset Nat) \ (PathSeg.line 1 2).ids.toFinset }))
    ∧ (Select.left_down Select.init ⟨⟨3, 3⟩, shiftMods, 1⟩
        { segSession with selection := ({1, 2} : Finset Nat) \ (PathSeg.line 1 2).ids.toFinset } =
      .ok (Select.init, { segSession with selection :=
        (({1, 2} : Finset Nat) \ (PathSeg.line 1 2).ids.toFinset) ∪ (PathSeg.line 1 2).ids.toFinset }))
    ∧ (({1, 2} : Finset Nat) \ (PathSeg.line 1 2).ids.toFinset) ∪ (PathSeg.line 1 2).ids.toFinset
        = ({1, 2} : Finset Nat) := by
  have h := c6_click_segment_group Select.init ⟨⟨3, 3⟩, shiftMods, 1⟩
    { segSession with selection := {1, 2} } (PathSeg.line 1 2) 0 rfl rfl rfl (by decide)
  have h5 := h.2.2.2.2 rfl (by decide)
  exact ⟨h.2.2.1 rfl (by decide), h5.1, h5.2⟩

/-! ## Claim C2: cancel restores the pre-drag snapshot -/

/-- In the Select drag state, a drag-changed callback keeps the pre-drag
snapshot untouched, updating only the rectangle and the live selection. -/
theorem left_drag_changed_select (tool : Select) (dragEvt : Drag) (data : EditSession)
    (prev : Finset Nat) (r : Rect) (h : tool.drag = DragState.Select prev r) :
    Select.left_drag_changed tool dragEvt data =
      .ok ({ tool with drag := (DragState.Select prev
          (Rect.fromPoints dragEvt.current.pos dragEvt.start.pos)) },
        update_selection_for_drag data prev
          (Rect.fromPoints dragEvt.current.pos dragEvt.start.pos)
          dragEvt.current.mods.shift) := by
  unfold Select.left_drag_changed
  rw [h]

/-- Any sequence of drag-changed callbacks delivered in the Select drag
state preserves the snapshot component of the drag state. -/
theorem runDragChanges_preserves_snapshot (ds : List Drag) :
    ∀ (st st' : Select × EditSession) (prev : Finset Nat) (r : Rect),
      st.1.drag = DragState.Select prev r →
      runDragChanges ds st = .ok st' →
      ∃ r', st'.1.drag = DragState.Select prev r' := by
  induction ds with
  | nil =>
    intro st st' prev r h hrun
    cases hrun
    exact ⟨r, h⟩
  | cons d ds ih =>
    intro st st' prev r h hrun
    unfold runDragChanges at hrun
    rw [left_drag_changed_select st.1 d st.2 prev r h] at hrun
    exact ih _ st' prev _ rfl hrun

/-- C2: a cancel after any sequence of drag-changed callbacks in a
Select (marquee) drag restores the live selection exactly to the pre-drag
snapshot `previous` and resets the drag state to `None`; a cancel during
a Move drag performs no selection or geometry rollback — the session is
returned untouched — and only resets the drag state to `None`. -/
theorem c2_cancel_restores_snapshot :
    (∀ (tool : Select) (data : EditSession) (prev : Finset Nat) (r : Rect)
        (ds : List Drag) (st' : Select × EditSession),
      tool.drag = DragState.Select prev r →
      runDragChanges ds (tool, data) = .ok st' →
      (Select.cancel st'.1 st'.2).1.drag = DragState.None
        ∧ (Select.cancel st'.1 st'.2).2.selection = prev)
    ∧ (∀ (tool : Select) (data : EditSession) (p : DPoint),
      tool.drag = DragState.Move p →
      Select.cancel tool data = ({ tool with drag := DragState.None }, data)) := by
  constructor
  · intro tool data prev r ds st' h hrun
    obtain ⟨r', h'⟩ := runDragChanges_preserves_snapshot ds (tool, data) st' prev r h hrun
    unfold Select.cancel
    rw [h']
    exact ⟨rfl, rfl⟩
  · intro tool data p h
    unfold Select.cancel
    rw [h]

/-- C2 witness: a one-frame marquee drag over the sample session (whose
rectangle captures both points), followed by cancel: the drag state is
reset and the selection is `{1}` again, the pre-drag snapshot. -/
theorem c2_cancel_restores_snapshot_witness :
    (Select.cancel
        ({ Select.init with drag := (DragState.Select {1}
            (Rect.fromPoints ⟨6, 6⟩ ⟨-1, -1⟩)) })
        (update_selection_for_drag sampleSession {1}
          (Rect.fromPoints ⟨6, 6⟩ ⟨-1, -1⟩) false)).1.drag = DragState.None
    ∧ (Select.cancel
        ({ Select.init with drag := (DragState.Select {1}
            (Rect.fromPoints ⟨6, 6⟩ ⟨-1, -1⟩)) })
        (update_selection_for_drag sampleSession {1}
          (Rect.fromPoints ⟨6, 6⟩ ⟨-1, -1⟩) false)).2.selection = {1} :=
  c2_cancel_restores_snapshot.1
    { Select.init with drag := (DragState.Select {1} (Rect.fromPoints ⟨0, 0⟩ ⟨0, 0⟩)) }
    sampleSession {1} (Rect.fromPoints ⟨0, 0⟩ ⟨0, 0⟩)
    [⟨⟨⟨-1, -1⟩, noMods, 1⟩, ⟨⟨6, 6⟩, noMods, 1⟩⟩]
    ({ Select.init with drag := (DragState.Select {1}
        (Rect.fromPoints ⟨6, 6⟩ ⟨-1, -1⟩)) },
      update_selection_for_drag sampleSession {1}
        (Rect.fromPoints ⟨6, 6⟩ ⟨-1, -1⟩) false)
    rfl rfl

/-! ## Claim C7: drag callbacks in the `None` state -/

/-- `left_down` never changes the drag state, and the only panic it can
raise is the unwrap panic of the alt-click upgrade branch. -/
theorem left_down_drag_and_panic (tool : Select) (e : MouseEvt) (data : EditSession) :
    (∀ st', Select.left_down tool e data = .ok st' → st'.1.drag = tool.drag)
    ∧ (∀ m, Select.left_down tool e data = .error m → m = PanicMsg.unwrapNone) := by
  constructor
  · intro st' h
    simp only [Select.left_down] at h
    repeat' split at h
    all_goals (cases h)
    all_goals rfl
  · intro m h
    simp only [Select.left_down] at h
    repeat' split at h
    all_goals (cases h)
    rfl

/-- When a drag-changed callback returns normally, the drag state it
leaves behind is never `None`. -/
theorem left_drag_changed_ok_drag (tool : Select) (dg : Drag) (data : EditSession) :
    ∀ st', Select.left_drag_changed tool dg data = .ok st' →
      st'.1.drag ≠ DragState.None := by
  intro st' h
  simp only [Select.left_drag_changed] at h
  repeat' split at h
  all_goals (cases h)
  all_goals simp_all

/-- A drag-changed callback panics only with the invalid-state panic, and
only when the drag state is `None`. -/
theorem left_drag_changed_error_facts (tool : Select) (dg : Drag) (data : EditSession) :
    ∀ m, Select.left_drag_changed tool dg data = .error m →
      m = PanicMsg.invalidState ∧ tool.drag = DragState.None := by
  intro m h
  simp only [Select.left_drag_changed] at h
  repeat' split at h
  all_goals (cases h)
  all_goals simp_all

/-- Under the dispatcher's callback-ordering precondition, no gesture
sequence ever reaches the invalid-state panic of `left_drag_changed`. -/
theorem runGestures_no_invalid_state (es : List GestureEvent) :
    ∀ (b : Bool) (st : Select × EditSession),
      validGestures b es = true →
      (b = true → st.1.drag ≠ DragState.None) →
      runGestures es st ≠ .error PanicMsg.invalidState := by
  induction es with
  | nil =>
    intro b st _ _ hrun
    exact absurd hrun (by simp [runGestures])
  | cons e es ih =>
    intro b st hvalid hinv hrun
    cases e with
    | moved me =>
      simp only [validGestures, inDragAfter, Bool.true_and] at hvalid
      simp only [runGestures, stepGesture] at hrun
      exact ih b (Select.mouse_moved st.1 me st.2) hvalid (fun hb => hinv hb) hrun
    | down me =>
      simp only [validGestures, inDragAfter, Bool.true_and] at hvalid
      simp only [runGestures, stepGesture] at hrun
      cases hld : Select.left_down st.1 me st.2 with
      | error m =>
        rw [hld] at hrun
        have hm := (left_down_drag_and_panic st.1 me st.2).2 m hld
        simp_all
      | ok st1 =>
        rw [hld] at hrun
        refine ih b st1 hvalid (fun hb => ?_) hrun
        rw [(left_down_drag_and_panic st.1 me st.2).1 st1 hld]
        exact hinv hb
    | up me =>
      simp only [validGestures, inDragAfter, Bool.true_and] at hvalid
      simp only [runGestures, stepGesture] at hrun
      exact ih false _ hvalid (fun hb => by simp at hb) hrun
    | dragBegan dg =>
      simp only [validGestures, inDragAfter, Bool.true_and] at hvalid
      simp only [runGestures, stepGesture] at hrun
      refine ih true _ hvalid (fun _ => ?_) hrun
      unfold Select.left_drag_began
      dsimp only
      split <;> simp
    | dragChanged dg =>
      simp only [validGestures, inDragAfter, Bool.and_eq_true] at hvalid
      obtain ⟨hb, hvalid⟩ := hvalid
      subst hb
      simp only [runGestures, stepGesture] at hrun
      cases hld : Select.left_drag_changed st.1 dg st.2 with
      | error m =>
        obtain ⟨_, hdr⟩ := left_drag_changed_error_facts st.1 dg st.2 m hld
        exact hinv rfl hdr
      | ok st1 =>
        rw [hld] at hrun
        exact ih true st1 hvalid
          (fun _ => left_drag_changed_ok_drag st.1 dg st.2 st1 hld) hrun
    | dragEnded dg =>
      simp only [validGestures, inDragAfter, Bool.true_and] at hvalid
      simp only [runGestures, stepGesture] at hrun
      exact ih false _ hvalid (fun hb => by simp at hb) hrun
    | cancelEvt =>
      simp only [validGestures, inDragAfter, Bool.true_and] at hvalid
      simp only [runGestures, stepGesture] at hrun
      exact ih false _ hvalid (fun hb => by simp at hb) hrun

/-- C7 counterexample: a drag-ended callback received while the drag
state is `None` does not abort — it returns normally, with tool and
session unchanged — contradicting the claim that a drag-ended callback
in the `None` state panics. -/
theorem c7_drag_ended_none_counterexample :
    Select.left_drag_ended Select.init
        ⟨⟨⟨0, 0⟩, noMods, 1⟩, ⟨⟨1, 1⟩, noMods, 1⟩⟩ sampleSession =
      (Select.init, sampleSession) := rfl

/-- C7 amended: a drag-changed callback received while the drag state is
`None` aborts loudly (the `unreachable!` panic), and under the
dispatcher's callback-ordering precondition no gesture sequence ever
reaches that panic; a drag-ended callback received while the drag state
is `None` is silently tolerated, returning normally with tool and session
unchanged. -/
theorem c7_amended_none_state (tool : Select) (dg : Drag) (data : EditSession) :
    (tool.drag = DragState.None →
      Select.left_drag_changed tool dg data = .error PanicMsg.invalidState)
    ∧ (tool.drag = DragState.None →
      Select.left_drag_ended tool dg data = (tool, data))
    ∧ (∀ (es : List GestureEvent) (b : Bool) (st : Select × EditSession),
      validGestures b es = true → (b = true → st.1.drag ≠ DragState.None) →
      runGestures es st ≠ .error PanicMsg.invalidState) := by
  refine ⟨fun h => ?_, fun h => ?_,
    fun es b st hv hi => runGestures_no_invalid_state es b st hv hi⟩
  · unfold Select.left_drag_changed
    rw [h]
  · unfold Select.left_drag_ended
    rw [h]
    rfl

/-- C7 amended witness: concrete instantiations — `left_drag_changed` in
the `None` state panics with the invalid-state panic, `left_drag_ended`
returns unchanged, and a concrete well-ordered gesture trace
(began, changed, up) runs without ever hitting the invalid-state
panic. -/
theorem c7_amended_none_state_witness :
    (Select.left_drag_changed Select.init
        ⟨⟨⟨0, 0⟩, noMods, 1⟩, ⟨⟨1, 1⟩, noMods, 1⟩⟩ { sampleSession with selection := {1} } =
      .error PanicMsg.invalidState)
    ∧ (Select.left_drag_ended Select.init
        ⟨⟨⟨0, 0⟩, noMods, 1⟩, ⟨⟨1, 1⟩, noMods, 1⟩⟩ { sampleSession with selection := {1} } =
      (Select.init, { sampleSession with selection := {1} }))
    ∧ runGestures
        [GestureEvent.dragBegan ⟨⟨⟨9, 9⟩, noMods, 1⟩, ⟨⟨1, 1⟩, noMods, 1⟩⟩,
          GestureEvent.dragChanged ⟨⟨⟨9, 9⟩, noMods, 1⟩, ⟨⟨2, 2⟩, noMods, 1⟩⟩,
          GestureEvent.up ⟨⟨2, 2⟩, noMods, 1⟩]
        (Select.init, { sampleSession with selection := {1} }) ≠
      .error PanicMsg.invalidState := by
  have h := c7_amended_none_state Select.init
    ⟨⟨⟨0, 0⟩, noMods, 1⟩, ⟨⟨1, 1⟩, noMods, 1⟩⟩ { sampleSession with selection := {1} }
  exact ⟨h.1 rfl, h.2.1 rfl,
    h.2.2 _ false (Select.init, { sampleSession with selection := {1} })
      rfl (fun hb => by simp at hb)⟩

/-! ## Claim C8: the pending edit-type slot -/

/-- C8: the pending edit-type slot is empty outside handler invocations:
each top-level entry point asserts the slot empty on entry (aborting
otherwise) and returns-and-clears it on exit on every control path —
including unhandled keys, and for `mouse_event` under every possible
behavior of the external gesture dispatcher. -/
theorem c8_edit_slot_invariant :
    (∀ (tool : Select) (e : KeyEvent) (data : EditSession)
        (r : Select × EditSession × Option EditType),
      Select.key_down tool e data = .ok r → r.1.this_edit_type = Option.none)
    ∧ (∀ (tool : Select) (e : KeyEvent) (data : EditSession),
      tool.this_edit_type.isSome = true →
      Select.key_down tool e data = .error PanicMsg.assertFailed)
    ∧ (∀ (dispatch : Select → EditSession → Except PanicMsg (Select × EditSession))
        (tool : Select) (data : EditSession)
        (r : Select × EditSession × Option EditType),
      Select.mouse_event dispatch tool data = .ok r →
        r.1.this_edit_type = Option.none)
    ∧ (∀ (dispatch : Select → EditSession → Except PanicMsg (Select × EditSession))
        (tool : Select) (data : EditSession),
      tool.this_edit_type.isSome = true →
      Select.mouse_event dispatch tool data = .error PanicMsg.assertFailed) := by
  refine ⟨?_, ?_, ?_, ?_⟩
  · intro tool e data r h
    simp only [Select.key_down] at h
    repeat' split at h
    all_goals (cases h)
    all_goals simp_all [Option.not_isSome_iff_eq_none]
  · intro tool e data h
    unfold Select.key_down
    rw [if_pos h]
  · intro dispatch tool data r h
    simp only [Select.mouse_event] at h
    repeat' split at h
    all_goals (cases h)
    all_goals rfl
  · intro dispatch tool data h
    unfold Select.mouse_event
    rw [if_pos h]

/-- C8 witness: concrete instantiations — an unhandled key leaves the
slot empty; a stale slot makes both entry points abort with the assertion
panic; a trivial dispatcher leaves the slot empty after `mouse_event`. -/
theorem c8_edit_slot_invariant_witness :
    Select.init.this_edit_type = Option.none
    ∧ (Select.key_down { Select.init with this_edit_type := some EditType.normal }
        ⟨KbKey.other, noMods⟩ sampleSession = .error PanicMsg.assertFailed)
    ∧ (Select.mouse_event (fun t d => .ok (t, d))
        { Select.init with this_edit_type := some EditType.drag } sampleSession =
      .error PanicMsg.assertFailed) :=
  ⟨c8_edit_slot_invariant.1 Select.init ⟨KbKey.other, noMods⟩ sampleSession
      (Select.init, sampleSession, Option.none) rfl,
    c8_edit_slot_invariant.2.1 { Select.init with this_edit_type := some EditType.normal }
      ⟨KbKey.other, noMods⟩ sampleSession rfl,
    c8_edit_slot_invariant.2.2.2 (fun t d => .ok (t, d))
      { Select.init with this_edit_type := some EditType.drag } sampleSession rfl⟩

/-! ## Claim C10: the alt-click upgrade unwrap -/

/-- C10: in the alt-click line-segment upgrade branch of `left_down`, the
unwrapped path lookup makes the call total exactly when the segment's
start id is contained in some path of the document; for an input
violating that precondition the call panics with the unwrap-on-None
panic, and otherwise it performs the in-place upgrade and emits
`Normal`. -/
theorem c10_upgrade_unwrap (tool : Select) (event : MouseEvt) (data : EditSession)
    (seg : PathSeg) (tpar : Int) (hcount : event.count = 1)
    (hnohit : data.hitTestAll event.pos = Option.none)
    (hseg : data.hitTestSegments event.pos = some (seg, tpar))
    (halt : event.mods.alt = true) (hline : seg.isLine = true) :
    ((∃ st', Select.left_down tool event data = .ok st') ↔
      (∃ i, data.pathForPoint seg.startId = some i))
    ∧ (data.pathForPoint seg.startId = Option.none →
      Select.left_down tool event data = .error PanicMsg.unwrapNone)
    ∧ (∀ i, data.pathForPoint seg.startId = some i →
      Select.left_down tool event data =
        .ok ({ tool with this_edit_type := some EditType.normal },
          { data with paths := listModify data.paths i (fun p => p.upgradeLineSeg seg) })) := by
  have hok : ∀ i, data.pathForPoint seg.startId = some i →
      Select.left_down tool event data =
        .ok ({ tool with this_edit_type := some EditType.normal },
          { data with paths := listModify data.paths i (fun p => p.upgradeLineSeg seg) }) := by
    intro i hi
    simp [Select.left_down, hcount, hnohit, hseg, halt, hline, hi]
  have herr : data.pathForPoint seg.startId = Option.none →
      Select.left_down tool event data = .error PanicMsg.unwrapNone := by
    intro hi
    simp [Select.left_down, hcount, hnohit, hseg, halt, hline, hi]
  refine ⟨⟨?_, ?_⟩, herr, hok⟩
  · rintro ⟨st', hst⟩
    cases hp : data.pathForPoint seg.startId with
    | none =>
      rw [herr hp] at hst
      cases hst
    | some i => exact ⟨i, rfl⟩
  · rintro ⟨i, hi⟩
    exact ⟨_, hok i hi⟩

/-- C10 witness: on the session whose segment hit test reports a line
segment between orphan points (no path contains them), an alt-click
panics with the unwrap-on-None panic. -/
theorem c10_upgrade_unwrap_witness :
    Select.left_down Select.init ⟨⟨3, 3⟩, ⟨false, true, false, false⟩, 1⟩
        orphanSegSession = .error PanicMsg.unwrapNone :=
  (c10_upgrade_unwrap Select.init ⟨⟨3, 3⟩, ⟨false, true, false, false⟩, 1⟩
    orphanSegSession (PathSeg.line 7 8) 0 rfl rfl rfl rfl rfl).2.1 rfl

end Runebender
